import Mathlib

/-!
Verification of the circular overlay shell (`circular_window.py`) and its
timer content layer (`timer_app.py`).

The event-processing logic is embedded shallowly: per-frame OS queries
(`GetForegroundWindow` comparison, `time.time()`, `GetCursorPos`) become an
explicit `Env` record, mutable object state becomes the records `CWState` /
`TWState`, and each Python method becomes a Lean function from state (and
environment) to state.  Radii and times are rationals in the event model,
since the event logic only stores and compares such values; the exponential
radius interpolation (`update_size`), which genuinely needs `Real.exp`, is
modelled separately over `ℝ`.
-/

/-- Keycode constant `pygame.K_ESCAPE`. -/
def K_ESCAPE : ℕ := 27

/-- Keycode constant `pygame.K_RETURN`. -/
def K_RETURN : ℕ := 13

/-- Input events of a per-frame batch (the pygame event types the code
inspects); `other` stands for any event type the code ignores. -/
inductive PEvent where
  | quit : PEvent
  | keyDown (key : ℕ) : PEvent
  | keyUp (key : ℕ) : PEvent
  | mouseButtonDown (button : ℕ) (pos : ℤ × ℤ) : PEvent
  | mouseButtonUp (button : ℕ) : PEvent
  | mouseMotion : PEvent
  | other : PEvent
deriving DecidableEq, Repr

/-- Per-frame environment: the OS facts the code queries during one call
(whether `self.hwnd == win32gui.GetForegroundWindow()`, the value of
`time.time()`, and `GetCursorPos`). -/
structure Env where
  foreground : Bool
  now : ℚ
  cursor : ℤ × ℤ
deriving DecidableEq, Repr

/-- State of a `CircularWindow` object.  `winPos` models the window top-left
as seen by `GetWindowRect`/`SetWindowPos`; `winSize` and `zTopmost` record the
window size and topmost z-order, which `SetWindowPos` called with
`SWP_NOSIZE | SWP_NOZORDER` leaves unchanged. -/
structure CWState where
  size : ℤ
  winPos : ℤ × ℤ
  winSize : ℤ × ℤ
  zTopmost : Bool
  dragging : Bool
  drag_offset : Option (ℤ × ℤ)
  escape_start : Option ℚ
  escape_held : Bool
  escape_duration : ℚ
  has_focus : Bool
  max_radius : ℚ
  min_radius : ℚ
  current_radius : ℚ
  target_radius : ℚ
  size_transition_speed : ℚ
  expanded : Bool
deriving DecidableEq, Repr

/-- Window center `(self.size//2, self.size//2)`. -/
def center (s : CWState) : ℤ × ℤ := (s.size / 2, s.size / 2)

/-- Encodes `math.dist(p, c) <= r`: for any radius `r`,
`sqrt(dx^2 + dy^2) ≤ r` holds iff `dx^2 + dy^2 ≤ r^2` and `0 ≤ r`, which is
the decidable form used here (the program never stores a negative radius). -/
def withinDist (p c : ℤ × ℤ) (r : ℚ) : Bool :=
  decide ((((p.1 - c.1) ^ 2 + (p.2 - c.2) ^ 2 : ℤ) : ℚ) ≤ r ^ 2) && decide (0 ≤ r)

/-- CircularWindow.__init__: the state fields after construction.  The
pygame/win32 window setup is reflected in the initial `winPos` (centered on a
`screenW × screenH` display), `winSize` and `zTopmost`.
`escape_duration = 1.5`, `max_radius = size//2`, `min_radius = size//5`,
`size_transition_speed = 8.0`, starting expanded with focus. -/
def winInit (size screenW screenH : ℤ) : CWState where
  size := size
  winPos := ((screenW - size) / 2, (screenH - size) / 2)
  winSize := (size, size)
  zTopmost := true
  dragging := false
  drag_offset := none
  escape_start := none
  escape_held := false
  escape_duration := 3 / 2
  has_focus := true
  max_radius := ((size / 2 : ℤ) : ℚ)
  min_radius := ((size / 5 : ℤ) : ℚ)
  current_radius := ((size / 2 : ℤ) : ℚ)
  target_radius := ((size / 2 : ℤ) : ℚ)
  size_transition_speed := 8
  expanded := true

/-- CircularWindow.handle_window_click: while collapsed, a click within the
current radius expands the window only when it is also within one third of
the current radius; returns whether the click was handled. -/
def handle_window_click (s : CWState) (pos : ℤ × ℤ) : CWState × Bool :=
  if !s.expanded && withinDist pos (center s) s.current_radius then
    if withinDist pos (center s) (s.current_radius / 3) then
      ({ s with expanded := true, target_radius := s.max_radius }, true)
    else (s, false)
  else (s, false)

/-- CircularWindow.update_window_pos: while dragging with a captured offset,
moves the window top-left to `cursor - drag_offset` via `SetWindowPos` with
`SWP_NOSIZE | SWP_NOZORDER` (position only; size and z-order untouched). -/
def update_window_pos (env : Env) (s : CWState) : CWState :=
  if s.dragging then
    match s.drag_offset with
    | some o => { s with winPos := (env.cursor.1 - o.1, env.cursor.2 - o.2) }
    | none => s
  else s

/-- One iteration of the event loop body of
CircularWindow.process_parent_events, for a single non-quit event. -/
def stepEvent (env : Env) (s : CWState) : PEvent → CWState
  | .quit => s
  | .keyDown k =>
      if k = K_ESCAPE then
        if !s.escape_held then
          { s with escape_start := some env.now, escape_held := true }
        else s
      else s
  | .keyUp k =>
      if k = K_ESCAPE then { s with escape_held := false, escape_start := none }
      else s
  | .mouseButtonDown b pos =>
      if b = 1 then
        let r := handle_window_click s pos
        if r.2 then r.1
        else if withinDist pos (center r.1) r.1.current_radius then
          { r.1 with
              drag_offset := some (env.cursor.1 - r.1.winPos.1, env.cursor.2 - r.1.winPos.2),
              dragging := true }
        else r.1
      else s
  | .mouseButtonUp b =>
      if b = 1 then { s with dragging := false, drag_offset := none } else s
  | .mouseMotion => if s.dragging then update_window_pos env s else s
  | .other => s

/-- The event loop of CircularWindow.process_parent_events: a `pygame.QUIT`
event returns False immediately (remaining events are not processed); the
second component is True when the loop ran to completion. -/
def processEventsLoop (env : Env) (s : CWState) : List PEvent → CWState × Bool
  | [] => (s, true)
  | e :: rest =>
      if e = PEvent.quit then (s, false)
      else processEventsLoop env (stepEvent env s e) rest

/-- Focus handling at the top of CircularWindow.process_parent_events:
records focus, and on focus loss while expanded collapses the window. -/
def focusUpdate (env : Env) (s : CWState) : CWState :=
  if !env.foreground && s.expanded then
    { s with has_focus := env.foreground, expanded := false,
             target_radius := s.min_radius }
  else { s with has_focus := env.foreground }

/-- The final escape check of CircularWindow.process_parent_events: the key
has been held at least `escape_duration` seconds. -/
def escTimedOut (env : Env) (s : CWState) : Bool :=
  s.escape_held &&
    match s.escape_start with
    | some t => decide (s.escape_duration ≤ env.now - t)
    | none => false

/-- CircularWindow.process_parent_events: focus update, then the event loop,
then the escape-hold check; the boolean is False when the window should
close. -/
def process_parent_events (env : Env) (s : CWState) (events : List PEvent) :
    CWState × Bool :=
  let r := processEventsLoop env (focusUpdate env s) events
  if r.2 then (r.1, !escTimedOut env r.1) else (r.1, false)

/-- Progress fraction computed by CircularWindow.draw_closing_animation:
`none` when nothing is drawn (not holding, or no start time), otherwise
`min(1.0, (now - escape_start) / escape_duration)`. -/
def closingProgress (now : ℚ) (s : CWState) : Option ℚ :=
  if s.escape_held then
    match s.escape_start with
    | some t => some (min 1 ((now - t) / s.escape_duration))
    | none => none
  else none

/-- Rectangle as in `pygame.Rect` (integer position and size). -/
structure Rect where
  x : ℤ
  y : ℤ
  w : ℤ
  h : ℤ
deriving DecidableEq, Repr

/-- Rect.collidepoint of pygame: inside test, inclusive on the left/top edge
and exclusive on the right/bottom edge. -/
def Rect.collidepoint (r : Rect) (p : ℤ × ℤ) : Bool :=
  decide (r.x ≤ p.1) && decide (p.1 < r.x + r.w) &&
    decide (r.y ≤ p.2) && decide (p.2 < r.y + r.h)

/-- Button rectangles of the timer content (the `self.buttons` dict, in its
insertion order start, reset, up, down). -/
structure Buttons where
  start : Rect
  reset : Rect
  up : Rect
  down : Rect
deriving DecidableEq, Repr

/-- State of a `TimerWindow` object: the inherited `CircularWindow` state
plus the timer fields.  `click_handled` is reset at the top of every
`handle_events` call, so it is modelled as a return value of the event scan
rather than a field. -/
structure TWState where
  cw : CWState
  seconds : ℤ
  running : Bool
  finished : Bool
  last_update : ℚ
  buttons : Buttons
  bg_color : ℤ × ℤ × ℤ
deriving DecidableEq, Repr

/-- TimerWindow.handle_button_click: in expanded mode, the first button rect
containing the click acts and consumes it (an `up`/`down` hit while running
still consumes the click without changing the time). -/
def handle_button_click (env : Env) (ts : TWState) (pos : ℤ × ℤ) :
    TWState × Bool :=
  if !ts.cw.expanded then (ts, false)
  else if ts.buttons.start.collidepoint pos then
    ({ ts with running := !ts.running, last_update := env.now, finished := false }, true)
  else if ts.buttons.reset.collidepoint pos then
    ({ ts with seconds := 300, running := false, finished := false }, true)
  else if ts.buttons.up.collidepoint pos then
    (if !ts.running then { ts with seconds := min 5400 (ts.seconds + 60) } else ts, true)
  else if ts.buttons.down.collidepoint pos then
    (if !ts.running then { ts with seconds := max 60 (ts.seconds - 60) } else ts, true)
  else (ts, false)

/-- One iteration of the first (timer-specific) event scan in
TimerWindow.handle_events; the boolean reports whether this event was a
consumed content click. -/
def timerEventStep (env : Env) (ts : TWState) : PEvent → TWState × Bool
  | .mouseButtonDown b pos =>
      if b = 1 then handle_button_click env ts pos
      else if (b = 4 || b = 5) && !ts.running && ts.cw.expanded then
        let d : ℤ := if b = 4 then 1 else -1
        ({ ts with seconds := max 60 (min 5400 (ts.seconds + 60 * d)) }, false)
      else (ts, false)
  | .keyDown k =>
      if k = K_RETURN && !ts.running then
        ({ ts with seconds := 300, finished := false }, false)
      else (ts, false)
  | _ => (ts, false)

/-- The timer-specific event scan of TimerWindow.handle_events; the boolean
is the final value of `self.click_handled`. -/
def timerLoop (env : Env) (ts : TWState) (events : List PEvent) : TWState × Bool :=
  events.foldl
    (fun acc e =>
      let r := timerEventStep env acc.1 e
      (r.1, acc.2 || r.2))
    (ts, false)

/-- TimerWindow.handle_events: scans events for content clicks first; if a
click was consumed it returns True immediately, otherwise it delegates the
same batch to CircularWindow.process_parent_events. -/
def handle_events (env : Env) (ts : TWState) (events : List PEvent) :
    TWState × Bool :=
  let r := timerLoop env ts events
  if r.2 then (r.1, true)
  else
    let p := process_parent_events env r.1.cw events
    ({ r.1 with cw := p.1 }, p.2)

/-- TimerWindow.__init__ button rectangles for a given window size.  The
fractional coordinates `size*0.7`, `size*0.82`, `size*0.75`, `size*0.2` that
`pygame.Rect` truncates to integers are written here as exact integer
divisions (`size * 7 / 10` etc., equal to the truncation for the positive
sizes the program uses); Python computes them in binary floating point,
which can land one pixel lower, and no claim depends on that pixel. -/
def originalButtons (size : ℤ) : Buttons :=
  let cx := size / 2
  let bw := size / 4
  let bh := size / 12
  { start := ⟨cx - bw / 2, size * 7 / 10, bw, bh⟩
    reset := ⟨cx - bw / 2, size * 41 / 50, bw, bh⟩
    up := ⟨size * 3 / 4, size / 2 - bh / 2, bh, bh⟩
    down := ⟨size / 5, size / 2 - bh / 2, bh, bh⟩ }

/-- TimerWindow.__init__: the timer state after construction.
`seconds = max(60, min(5400, initial_minutes * 60))`, `running = autostart`,
`last_update = time.time()` (the `now` argument). -/
def twInit (size screenW screenH : ℤ) (initial_minutes : ℤ) (autostart : Bool)
    (bg : ℤ × ℤ × ℤ) (now : ℚ) : TWState where
  cw := winInit size screenW screenH
  seconds := max 60 (min 5400 (initial_minutes * 60))
  running := autostart
  finished := false
  last_update := now
  buttons := originalButtons size
  bg_color := bg

/-- Color-argument parsing in `main`: the argument split at commas with each
piece passed to `int()` is modelled as a list of `Option ℤ` (`none` for a
piece `int()` rejects).  Any parse failure, a length other than 3, or a
component outside `[0, 255]` falls back to the default `(0, 120, 255)`. -/
def parse_color (parts : List (Option ℤ)) : ℤ × ℤ × ℤ :=
  match parts with
  | [some r, some g, some b] =>
      if 0 ≤ r && r ≤ 255 && 0 ≤ g && g ≤ 255 && 0 ≤ b && b ≤ 255 then (r, g, b)
      else (0, 120, 255)
  | _ => (0, 120, 255)

/-- Validity of a color argument: three comma-separated integers each in
`[0, 255]`. -/
def isValidColor (parts : List (Option ℤ)) : Bool :=
  match parts with
  | [some r, some g, some b] =>
      0 ≤ r && r ≤ 255 && 0 ≤ g && g ≤ 255 && 0 ≤ b && b ≤ 255
  | _ => false

/-- Effect of one event on the pair `(escape_held, escape_start)`: the
close-gesture logic of the event loop in isolation. -/
def escStep (env : Env) (p : Bool × Option ℚ) : PEvent → Bool × Option ℚ
  | .keyDown k =>
      if k = K_ESCAPE then (if !p.1 then (true, some env.now) else p) else p
  | .keyUp k => if k = K_ESCAPE then (false, none) else p
  | _ => p

/-- Whether an event is a primary (left) pointer-down. -/
def isLeftDown : PEvent → Bool
  | .mouseButtonDown b _ => b == 1
  | _ => false

/-- Radius interpolation state (the fields of CircularWindow touched by
update_size), over `ℝ` because the step uses `math.exp`. -/
structure RadiusState where
  current : ℝ
  target : ℝ
  min_radius : ℝ
  max_radius : ℝ
  speed : ℝ

/-- CircularWindow.lerp. -/
noncomputable def lerp (start finish t : ℝ) : ℝ := start + (finish - start) * t

/-- CircularWindow.update_size: one interpolation step with `dt = 1/60`,
`current ← lerp(current, target, 1 - exp(-speed * dt))`, guarded by
`|current - target| > 0.1`. -/
noncomputable def update_size (s : RadiusState) : RadiusState :=
  if 0.1 < |s.current - s.target| then
    { s with current := lerp s.current s.target (1 - Real.exp (-(s.speed * (1 / 60)))) }
  else s

/-- Radius fields set by CircularWindow.__init__: `max = size//2`,
`min = size//5`, `current = target = max`, `speed = 8.0`. -/
noncomputable def radiusInit (size : ℤ) : RadiusState where
  current := ((size / 2 : ℤ) : ℝ)
  target := ((size / 2 : ℤ) : ℝ)
  min_radius := ((size / 5 : ℤ) : ℝ)
  max_radius := ((size / 2 : ℤ) : ℝ)
  speed := 8

/-- Concrete per-frame environment used in concrete evaluations. -/
def env0 : Env := { foreground := true, now := 0, cursor := (500, 500) }

/-- TimerWindow state right after construction at size 400 on a 1920×1080
display: expanded, not running, START button rect at (150, 280)–(250, 313). -/
def ts400 : TWState := twInit 400 1920 1080 5 false (0, 120, 255) 0

/-- Event batch: a click on the START button followed by a quit request. -/
def evsClickQuit : List PEvent := [PEvent.mouseButtonDown 1 (200, 290), PEvent.quit]

/-- Event batch: a click on the START button followed by an escape key-down. -/
def evsClickEsc : List PEvent := [PEvent.mouseButtonDown 1 (200, 290), PEvent.keyDown 27]

/-- A collapsed shell state at size 400 with the radius settled at the
collapsed value 80. -/
def sCollapsed : CWState :=
  { winInit 400 1920 1080 with expanded := false, current_radius := 80, target_radius := 80 }

theorem update_window_pos_spec (env : Env) (s : CWState) :
    ∃ p, update_window_pos env s = { s with winPos := p } := by
  unfold update_window_pos
  split
  · split
    · exact ⟨_, rfl⟩
    · exact ⟨s.winPos, rfl⟩
  · exact ⟨s.winPos, rfl⟩

theorem handle_window_click_spec (s : CWState) (pos : ℤ × ℤ) :
    handle_window_click s pos =
        ({ s with expanded := true, target_radius := s.max_radius }, true) ∨
      handle_window_click s pos = (s, false) := by
  unfold handle_window_click
  split_ifs <;> simp

theorem loop_quit (env : Env) : ∀ (events : List PEvent) (s : CWState),
    ((processEventsLoop env s events).2 = false ↔ PEvent.quit ∈ events) := by
  intro events
  induction events with
  | nil => intro s; simp [processEventsLoop]
  | cons e rest ih =>
      intro s
      by_cases he : e = PEvent.quit
      · subst he; simp [processEventsLoop]
      · simp only [processEventsLoop, if_neg he, List.mem_cons]
        rw [ih]
        constructor
        · exact Or.inr
        · rintro (h | h)
          · exact absurd h.symm he
          · exact h

theorem stepEvent_escape (env : Env) (s : CWState) (e : PEvent) :
    (((stepEvent env s e).escape_held, (stepEvent env s e).escape_start) =
      escStep env (s.escape_held, s.escape_start) e) := by
  cases e with
  | quit => rfl
  | other => rfl
  | keyDown k =>
      simp only [stepEvent, escStep]
      split_ifs <;> rfl
  | keyUp k =>
      simp only [stepEvent, escStep]
      split_ifs <;> rfl
  | mouseButtonUp b =>
      simp only [stepEvent, escStep]
      split_ifs <;> rfl
  | mouseMotion =>
      rcases update_window_pos_spec env s with ⟨p, h⟩
      by_cases hd : s.dragging <;> simp [stepEvent, escStep, hd, h]
  | mouseButtonDown b pos =>
      rcases handle_window_click_spec s pos with h | h <;>
        simp [stepEvent, escStep, h] <;> split_ifs <;> simp

theorem loop_escape (env : Env) : ∀ (events : List PEvent) (s : CWState),
    PEvent.quit ∉ events →
    (((processEventsLoop env s events).1.escape_held,
        (processEventsLoop env s events).1.escape_start) =
      events.foldl (escStep env) (s.escape_held, s.escape_start)) := by
  intro events
  induction events with
  | nil => intro s _; rfl
  | cons e rest ih =>
      intro s hq
      have he : e ≠ PEvent.quit := fun h => hq (by simp [h])
      simp only [processEventsLoop, if_neg he, List.foldl_cons]
      rw [← stepEvent_escape env s e]
      exact ih (stepEvent env s e) (fun hm => hq (List.mem_cons_of_mem e hm))

theorem stepEvent_const_fields (env : Env) (s : CWState) (e : PEvent) :
    (stepEvent env s e).size = s.size ∧
    (stepEvent env s e).winSize = s.winSize ∧
    (stepEvent env s e).zTopmost = s.zTopmost ∧
    (stepEvent env s e).escape_duration = s.escape_duration ∧
    (stepEvent env s e).max_radius = s.max_radius ∧
    (stepEvent env s e).min_radius = s.min_radius ∧
    (stepEvent env s e).current_radius = s.current_radius ∧
    (stepEvent env s e).size_transition_speed = s.size_transition_speed := by
  cases e with
  | quit => exact ⟨rfl, rfl, rfl, rfl, rfl, rfl, rfl, rfl⟩
  | other => exact ⟨rfl, rfl, rfl, rfl, rfl, rfl, rfl, rfl⟩
  | keyDown k => simp only [stepEvent]; split_ifs <;> simp
  | keyUp k => simp only [stepEvent]; split_ifs <;> simp
  | mouseButtonUp b => simp only [stepEvent]; split_ifs <;> simp
  | mouseMotion =>
      rcases update_window_pos_spec env s with ⟨p, h⟩
      by_cases hd : s.dragging <;> simp [stepEvent, hd, h]
  | mouseButtonDown b pos =>
      rcases handle_window_click_spec s pos with h | h <;>
        simp [stepEvent, h] <;> split_ifs <;> simp

theorem loop_const_fields (env : Env) : ∀ (events : List PEvent) (s : CWState),
    (processEventsLoop env s events).1.escape_duration = s.escape_duration ∧
    (processEventsLoop env s events).1.winSize = s.winSize ∧
    (processEventsLoop env s events).1.zTopmost = s.zTopmost ∧
    (processEventsLoop env s events).1.min_radius = s.min_radius := by
  intro events
  induction events with
  | nil => intro s; exact ⟨rfl, rfl, rfl, rfl⟩
  | cons e rest ih =>
      intro s
      by_cases he : e = PEvent.quit
      · subst he; simp [processEventsLoop]
      · simp only [processEventsLoop, if_neg he]
        obtain ⟨h1, h2, h3, h4⟩ := ih (stepEvent env s e)
        obtain ⟨_, g2, g3, g4, _, g6, _, _⟩ := stepEvent_const_fields env s e
        exact ⟨h1.trans g4, h2.trans g2, h3.trans g3, h4.trans g6⟩

theorem focusUpdate_fields (env : Env) (s : CWState) :
    (focusUpdate env s).escape_held = s.escape_held ∧
    (focusUpdate env s).escape_start = s.escape_start ∧
    (focusUpdate env s).escape_duration = s.escape_duration ∧
    (focusUpdate env s).dragging = s.dragging ∧
    (focusUpdate env s).drag_offset = s.drag_offset ∧
    (focusUpdate env s).min_radius = s.min_radius ∧
    (focusUpdate env s).current_radius = s.current_radius ∧
    (focusUpdate env s).winSize = s.winSize ∧
    (focusUpdate env s).zTopmost = s.zTopmost := by
  unfold focusUpdate
  split_ifs <;> simp

theorem ppe_fst (env : Env) (s : CWState) (events : List PEvent) :
    (process_parent_events env s events).1 =
      (processEventsLoop env (focusUpdate env s) events).1 := by
  by_cases h : (processEventsLoop env (focusUpdate env s) events).2 <;>
    simp [process_parent_events, h]

theorem ppe_snd (env : Env) (s : CWState) (events : List PEvent) :
    (process_parent_events env s events).2 =
      (if (processEventsLoop env (focusUpdate env s) events).2 then
        !escTimedOut env (processEventsLoop env (focusUpdate env s) events).1
      else false) := by
  by_cases h : (processEventsLoop env (focusUpdate env s) events).2 <;>
    simp [process_parent_events, h]

theorem ppe_stop_iff (env : Env) (s : CWState) (events : List PEvent) :
    ((process_parent_events env s events).2 = false ↔
      (PEvent.quit ∈ events ∨
        escTimedOut env (processEventsLoop env (focusUpdate env s) events).1 = true)) := by
  cases hl : (processEventsLoop env (focusUpdate env s) events).2 with
  | false =>
      simp [process_parent_events, hl]
      exact Or.inl ((loop_quit env events (focusUpdate env s)).mp hl)
  | true =>
      have hq : PEvent.quit ∉ events := fun hm => by
        have := (loop_quit env events (focusUpdate env s)).mpr hm
        rw [this] at hl
        exact Bool.noConfusion hl
      simp [process_parent_events, hl, hq]

theorem ppe_escape (env : Env) (s : CWState) (events : List PEvent)
    (hq : PEvent.quit ∉ events) :
    (((process_parent_events env s events).1.escape_held,
        (process_parent_events env s events).1.escape_start) =
      events.foldl (escStep env) (s.escape_held, s.escape_start)) := by
  rw [ppe_fst, loop_escape env events _ hq, (focusUpdate_fields env s).1,
    (focusUpdate_fields env s).2.1]

theorem ppe_duration (env : Env) (s : CWState) (events : List PEvent) :
    (process_parent_events env s events).1.escape_duration = s.escape_duration := by
  rw [ppe_fst, (loop_const_fields env events _).1, (focusUpdate_fields env s).2.2.1]

theorem handle_events_snd (env : Env) (ts : TWState) (events : List PEvent) :
    (handle_events env ts events).2 =
      (if (timerLoop env ts events).2 then true
       else (process_parent_events env (timerLoop env ts events).1.cw events).2) := by
  by_cases h : (timerLoop env ts events).2 <;> simp [handle_events, h]

theorem stepEvent_notLeft (env : Env) (s : CWState) (e : PEvent)
    (he : isLeftDown e = false) :
    (stepEvent env s e).expanded = s.expanded ∧
    (stepEvent env s e).target_radius = s.target_radius := by
  cases e with
  | quit => exact ⟨rfl, rfl⟩
  | other => exact ⟨rfl, rfl⟩
  | keyDown k => simp only [stepEvent]; split_ifs <;> simp
  | keyUp k => simp only [stepEvent]; split_ifs <;> simp
  | mouseButtonUp b => simp only [stepEvent]; split_ifs <;> simp
  | mouseMotion =>
      rcases update_window_pos_spec env s with ⟨p, h⟩
      by_cases hd : s.dragging <;> simp [stepEvent, hd, h]
  | mouseButtonDown b pos =>
      have hb : ¬(b = 1) := by
        simp only [isLeftDown] at he
        exact fun h => by simp [h] at he
      simp [stepEvent, hb]

theorem loop_notLeft (env : Env) : ∀ (events : List PEvent) (s : CWState),
    (∀ e ∈ events, isLeftDown e = false) →
    ((processEventsLoop env s events).1.expanded = s.expanded ∧
      (processEventsLoop env s events).1.target_radius = s.target_radius) := by
  intro events
  induction events with
  | nil => intro s _; exact ⟨rfl, rfl⟩
  | cons e rest ih =>
      intro s hno
      by_cases he : e = PEvent.quit
      · subst he; simp [processEventsLoop]
      · simp only [processEventsLoop, if_neg he]
        obtain ⟨h1, h2⟩ := ih (stepEvent env s e) (fun x hx => hno x (List.mem_cons_of_mem e hx))
        obtain ⟨g1, g2⟩ := stepEvent_notLeft env s e (hno e (List.mem_cons_self e rest))
        exact ⟨h1.trans g1, h2.trans g2⟩

theorem timerEventStep_cw (env : Env) (ts : TWState) (e : PEvent) :
    (timerEventStep env ts e).1.cw = ts.cw := by
  cases e with
  | quit => rfl
  | other => rfl
  | mouseMotion => rfl
  | mouseButtonUp b => rfl
  | keyUp k => rfl
  | keyDown k => simp only [timerEventStep]; split_ifs <;> rfl
  | mouseButtonDown b pos =>
      simp only [timerEventStep, handle_button_click]
      split_ifs <;> rfl

theorem timerLoop_cw_aux (env : Env) : ∀ (events : List PEvent) (ts : TWState) (b : Bool),
    ((events.foldl
        (fun acc e =>
          let r := timerEventStep env acc.1 e
          (r.1, acc.2 || r.2))
        (ts, b)).1.cw = ts.cw) := by
  intro events
  induction events with
  | nil => intro ts b; rfl
  | cons e rest ih =>
      intro ts b
      exact (ih (timerEventStep env ts e).1 (b || (timerEventStep env ts e).2)).trans
        (timerEventStep_cw env ts e)

theorem timerLoop_cw (env : Env) (ts : TWState) (events : List PEvent) :
    (timerLoop env ts events).1.cw = ts.cw :=
  timerLoop_cw_aux env events ts false

theorem handle_events_cw (env : Env) (ts : TWState) (events : List PEvent)
    (hch : (timerLoop env ts events).2 = false) :
    (handle_events env ts events).1.cw =
      (process_parent_events env ts.cw events).1 := by
  simp only [handle_events, hch, if_neg Bool.false_ne_true]
  simp [timerLoop_cw]

theorem focusUpdate_collapsed (env : Env) (s : CWState) (h : s.expanded = false) :
    (focusUpdate env s).expanded = s.expanded ∧
    (focusUpdate env s).target_radius = s.target_radius := by
  simp [focusUpdate, h]

theorem update_size_const (s : RadiusState) :
    (update_size s).target = s.target ∧
    (update_size s).min_radius = s.min_radius ∧
    (update_size s).max_radius = s.max_radius ∧
    (update_size s).speed = s.speed := by
  unfold update_size
  split_ifs <;> simp

theorem decayFactor_mem (x : ℝ) (hx : 0 ≤ x) :
    0 ≤ 1 - Real.exp (-x) ∧ 1 - Real.exp (-x) ≤ 1 := by
  constructor
  · have h1 : Real.exp (-x) ≤ 1 := Real.exp_le_one_iff.mpr (by linarith)
    linarith
  · have h2 : 0 < Real.exp (-x) := Real.exp_pos _
    linarith

theorem update_size_step_le (s : RadiusState) (hs : 0 ≤ s.speed)
    (h : s.current ≤ s.target) :
    s.current ≤ (update_size s).current ∧ (update_size s).current ≤ s.target := by
  unfold update_size
  split_ifs with hif
  · obtain ⟨hk0, hk1⟩ := decayFactor_mem (s.speed * (1 / 60)) (by positivity)
    simp only [lerp]
    constructor
    · nlinarith [mul_nonneg (sub_nonneg.mpr h) hk0]
    · nlinarith [mul_nonneg (sub_nonneg.mpr h) (sub_nonneg.mpr hk1)]
  · exact ⟨le_refl _, h⟩

theorem update_size_step_ge (s : RadiusState) (hs : 0 ≤ s.speed)
    (h : s.target ≤ s.current) :
    (update_size s).current ≤ s.current ∧ s.target ≤ (update_size s).current := by
  unfold update_size
  split_ifs with hif
  · obtain ⟨hk0, hk1⟩ := decayFactor_mem (s.speed * (1 / 60)) (by positivity)
    simp only [lerp]
    constructor
    · nlinarith [mul_nonneg (sub_nonneg.mpr h) hk0]
    · nlinarith [mul_nonneg (sub_nonneg.mpr h) (sub_nonneg.mpr hk1)]
  · exact ⟨le_refl _, h⟩

theorem update_size_iter_const (s : RadiusState) (n : ℕ) :
    (update_size^[n] s).target = s.target ∧
    (update_size^[n] s).min_radius = s.min_radius ∧
    (update_size^[n] s).max_radius = s.max_radius ∧
    (update_size^[n] s).speed = s.speed := by
  induction n with
  | zero => exact ⟨rfl, rfl, rfl, rfl⟩
  | succ n ih =>
      rw [Function.iterate_succ_apply']
      obtain ⟨a, b, c, d⟩ := ih
      obtain ⟨a2, b2, c2, d2⟩ := update_size_const (update_size^[n] s)
      exact ⟨a2.trans a, b2.trans b, c2.trans c, d2.trans d⟩

theorem update_size_iter_le (s : RadiusState) (hs : 0 ≤ s.speed)
    (h : s.current ≤ s.target) (n : ℕ) :
    s.current ≤ (update_size^[n] s).current ∧
      (update_size^[n] s).current ≤ s.target := by
  induction n with
  | zero => exact ⟨le_refl _, h⟩
  | succ n ih =>
      rw [Function.iterate_succ_apply']
      have hc := update_size_iter_const s n
      have hstep := update_size_step_le (update_size^[n] s)
        (hc.2.2.2.symm ▸ hs) (by rw [hc.1]; exact ih.2)
      exact ⟨ih.1.trans hstep.1, by rw [hc.1] at hstep; exact hstep.2⟩

theorem update_size_iter_ge (s : RadiusState) (hs : 0 ≤ s.speed)
    (h : s.target ≤ s.current) (n : ℕ) :
    (update_size^[n] s).current ≤ s.current ∧
      s.target ≤ (update_size^[n] s).current := by
  induction n with
  | zero => exact ⟨le_refl _, h⟩
  | succ n ih =>
      rw [Function.iterate_succ_apply']
      have hc := update_size_iter_const s n
      have hstep := update_size_step_ge (update_size^[n] s)
        (hc.2.2.2.symm ▸ hs) (by rw [hc.1]; exact ih.2)
      exact ⟨hstep.1.trans ih.1, by rw [hc.1] at hstep; exact hstep.2⟩

theorem escTimedOut_not_held (env : Env) (s : CWState) (h : s.escape_held = false) :
    escTimedOut env s = false := by
  simp [escTimedOut, h]

theorem escTimedOut_some (env : Env) (s : CWState) (t : ℚ)
    (hh : s.escape_held = true) (hs : s.escape_start = some t) :
    escTimedOut env s = decide (s.escape_duration ≤ env.now - t) := by
  simp [escTimedOut, hh, hs]

theorem ppe_snd_eq (env : Env) (s : CWState) (events : List PEvent)
    (hq : PEvent.quit ∉ events) :
    (process_parent_events env s events).2 =
      !escTimedOut env (process_parent_events env s events).1 := by
  have hl : (processEventsLoop env (focusUpdate env s) events).2 = true := by
    cases h : (processEventsLoop env (focusUpdate env s) events).2
    · exact absurd ((loop_quit env events _).mp h) hq
    · rfl
  rw [ppe_snd, hl]
  simp [ppe_fst]

theorem withinDist_third (p c : ℤ × ℤ) (r : ℚ)
    (h : withinDist p c (r / 3) = true) : withinDist p c r = true := by
  simp only [withinDist, Bool.and_eq_true, decide_eq_true_eq] at h ⊢
  obtain ⟨h1, h2⟩ := h
  have hr : 0 ≤ r := by linarith
  refine ⟨le_trans h1 ?_, hr⟩
  nlinarith

theorem parse_color_invalid (parts : List (Option ℤ))
    (h : isValidColor parts = false) : parse_color parts = (0, 120, 255) := by
  rcases parts with _ | ⟨a, _ | ⟨b, _ | ⟨c, _ | ⟨d, rest⟩⟩⟩⟩ <;>
    first
      | rfl
      | (cases a <;> rfl)
      | (cases a <;> cases b <;> rfl)
      | (cases a <;> cases b <;> cases c <;>
          simp_all [parse_color, isValidColor])

theorem parse_color_valid (parts : List (Option ℤ))
    (h : isValidColor parts = true) :
    0 ≤ (parse_color parts).1 ∧ (parse_color parts).1 ≤ 255 ∧
    0 ≤ (parse_color parts).2.1 ∧ (parse_color parts).2.1 ≤ 255 ∧
    0 ≤ (parse_color parts).2.2 ∧ (parse_color parts).2.2 ≤ 255 := by
  rcases parts with _ | ⟨a, _ | ⟨b, _ | ⟨c, _ | ⟨d, rest⟩⟩⟩⟩ <;>
    simp_all [isValidColor]
  cases a <;> cases b <;> cases c <;> simp_all [parse_color, isValidColor]

/-- C10: a key-down of the close key that arrives while the gesture is
already holding (escape_held = true), such as an OS key-repeat event, leaves
the whole state — in particular escape_start and escape_held — unchanged, so
the recorded hold start and the displayed progress are never reset by
repeated key-downs during one continuous hold. -/
theorem claim10_keyrepeat_noop (env : Env) (s : CWState)
    (h : s.escape_held = true) :
    stepEvent env s (PEvent.keyDown K_ESCAPE) = s := by
  simp [stepEvent, h]

theorem claim10_keyrepeat_noop_witness :
    ({ winInit 400 1920 1080 with escape_held := true, escape_start := some 0 } :
        CWState).escape_held = true ∧
    stepEvent env0
        { winInit 400 1920 1080 with escape_held := true, escape_start := some 0 }
        (PEvent.keyDown K_ESCAPE) =
      { winInit 400 1920 1080 with escape_held := true, escape_start := some 0 } :=
  ⟨rfl, claim10_keyrepeat_noop env0 _ rfl⟩

/-- C8: while a drag is active with captured offset o, a pointer-move with
the cursor at (x, y) repositions the window top-left to exactly
(x - o.1, y - o.2), and changes neither the window size nor its topmost
z-order (the reposition call passes SWP_NOSIZE | SWP_NOZORDER). -/
theorem claim8_drag_exact (env : Env) (s : CWState) (o : ℤ × ℤ)
    (hd : s.dragging = true) (ho : s.drag_offset = some o) :
    stepEvent env s PEvent.mouseMotion =
        { s with winPos := (env.cursor.1 - o.1, env.cursor.2 - o.2) } ∧
    (stepEvent env s PEvent.mouseMotion).winSize = s.winSize ∧
    (stepEvent env s PEvent.mouseMotion).zTopmost = s.zTopmost := by
  have h1 : stepEvent env s PEvent.mouseMotion = update_window_pos env s := by
    simp [stepEvent, hd]
  have h2 : update_window_pos env s =
      { s with winPos := (env.cursor.1 - o.1, env.cursor.2 - o.2) } := by
    simp [update_window_pos, hd, ho]
  rw [h1, h2]
  exact ⟨rfl, rfl, rfl⟩

theorem claim8_drag_exact_witness :
    ({ winInit 400 1920 1080 with dragging := true, drag_offset := some (10, 20) } :
        CWState).dragging = true ∧
    ({ winInit 400 1920 1080 with dragging := true, drag_offset := some (10, 20) } :
        CWState).drag_offset = some (10, 20) ∧
    stepEvent env0
        { winInit 400 1920 1080 with dragging := true, drag_offset := some (10, 20) }
        PEvent.mouseMotion =
      { winInit 400 1920 1080 with
          dragging := true
          drag_offset := some (10, 20)
          winPos := (490, 480) } :=
  ⟨rfl, rfl, by
    have h := claim8_drag_exact env0
      { winInit 400 1920 1080 with dragging := true, drag_offset := some (10, 20) }
      (10, 20) rfl rfl
    exact h.1.trans rfl⟩

/-- C5: while collapsed, a primary pointer-down at distance at most one third
of the current radius from the window center expands the window (sets
expanded and target_radius := max_radius) and is reported consumed, leaving
the drag state untouched; a primary pointer-down between one third of the
radius and the radius is not consumed by activation and instead captures
cursor - windowTopLeft as the drag offset and sets dragging. -/
theorem claim5_activation_zone (env : Env) (s : CWState) (pos : ℤ × ℤ)
    (hexp : s.expanded = false) :
    (withinDist pos (center s) (s.current_radius / 3) = true →
      handle_window_click s pos =
          ({ s with expanded := true, target_radius := s.max_radius }, true) ∧
      stepEvent env s (PEvent.mouseButtonDown 1 pos) =
        { s with expanded := true, target_radius := s.max_radius }) ∧
    (withinDist pos (center s) (s.current_radius / 3) = false →
      withinDist pos (center s) s.current_radius = true →
      (handle_window_click s pos).2 = false ∧
      stepEvent env s (PEvent.mouseButtonDown 1 pos) =
        { s with
            drag_offset := some (env.cursor.1 - s.winPos.1, env.cursor.2 - s.winPos.2),
            dragging := true }) := by
  constructor
  · intro h3
    have houter := withinDist_third pos (center s) s.current_radius h3
    have hclick : handle_window_click s pos =
        ({ s with expanded := true, target_radius := s.max_radius }, true) := by
      simp [handle_window_click, hexp, houter, h3]
    refine ⟨hclick, ?_⟩
    simp [stepEvent, hclick]
  · intro h3 houter
    have hclick : handle_window_click s pos = (s, false) := by
      simp [handle_window_click, hexp, houter, h3]
    refine ⟨by rw [hclick], ?_⟩
    simp [stepEvent, hclick, houter]

theorem claim5_activation_zone_witness :
    sCollapsed.expanded = false ∧
    withinDist (210, 200) (center sCollapsed) (sCollapsed.current_radius / 3) = true ∧
    (withinDist (210, 200) (center sCollapsed) (sCollapsed.current_radius / 3) = true →
      handle_window_click sCollapsed (210, 200) =
          ({ sCollapsed with expanded := true, target_radius := sCollapsed.max_radius }, true) ∧
      stepEvent env0 sCollapsed (PEvent.mouseButtonDown 1 (210, 200)) =
        { sCollapsed with expanded := true, target_radius := sCollapsed.max_radius }) ∧
    (withinDist (260, 200) (center sCollapsed) (sCollapsed.current_radius / 3) = false →
      withinDist (260, 200) (center sCollapsed) sCollapsed.current_radius = true →
      (handle_window_click sCollapsed (260, 200)).2 = false ∧
      stepEvent env0 sCollapsed (PEvent.mouseButtonDown 1 (260, 200)) =
        { sCollapsed with
            drag_offset := some (env0.cursor.1 - sCollapsed.winPos.1,
              env0.cursor.2 - sCollapsed.winPos.2),
            dragging := true }) :=
  ⟨rfl, by
      simp only [withinDist, sCollapsed, winInit, center, Bool.and_eq_true,
        decide_eq_true_eq]
      norm_num,
    (claim5_activation_zone env0 sCollapsed (210, 200) rfl).1,
    (claim5_activation_zone env0 sCollapsed (260, 200) rfl).2⟩

/-- C6: on a frame where the window is not the OS foreground window while
expanded, the shell sets expanded := false and target_radius := min_radius;
and from a collapsed state, a frame containing no primary pointer-down —
in particular a frame that merely regains focus — leaves the window
collapsed with its target radius unchanged, so expansion can only come from
an activation click. -/
theorem claim6_focus_collapse (env1 env2 : Env) (s sc : CWState)
    (events : List PEvent) (hfg : env1.foreground = false)
    (hexp : s.expanded = true) (hc : sc.expanded = false)
    (hno : ∀ e ∈ events, isLeftDown e = false) :
    ((focusUpdate env1 s).expanded = false ∧
     (focusUpdate env1 s).target_radius = s.min_radius) ∧
    ((process_parent_events env2 sc events).1.expanded = false ∧
     (process_parent_events env2 sc events).1.target_radius = sc.target_radius) := by
  constructor
  · simp [focusUpdate, hfg, hexp]
  · have hfu := focusUpdate_collapsed env2 sc hc
    have hl := loop_notLeft env2 events (focusUpdate env2 sc) hno
    rw [ppe_fst]
    constructor
    · rw [hl.1, hfu.1, hc]
    · rw [hl.2, hfu.2]

theorem claim6_focus_collapse_witness :
    ({ env0 with foreground := false } : Env).foreground = false ∧
    (winInit 400 1920 1080).expanded = true ∧
    sCollapsed.expanded = false ∧
    (∀ e ∈ [PEvent.keyDown 13, PEvent.mouseMotion], isLeftDown e = false) ∧
    (((focusUpdate { env0 with foreground := false } (winInit 400 1920 1080)).expanded = false ∧
      (focusUpdate { env0 with foreground := false } (winInit 400 1920 1080)).target_radius =
        (winInit 400 1920 1080).min_radius) ∧
     ((process_parent_events env0 sCollapsed [PEvent.keyDown 13, PEvent.mouseMotion]).1.expanded = false ∧
      (process_parent_events env0 sCollapsed [PEvent.keyDown 13, PEvent.mouseMotion]).1.target_radius =
        sCollapsed.target_radius)) :=
  ⟨rfl, rfl, rfl, by decide,
    claim6_focus_collapse { env0 with foreground := false } env0
      (winInit 400 1920 1080) sCollapsed [PEvent.keyDown 13, PEvent.mouseMotion]
      rfl rfl rfl (by decide)⟩

/-- C3: for every radius state with min_radius ≤ current ≤ max_radius,
target ∈ {min_radius, max_radius} and nonnegative transition speed, repeated
update_size calls keep current within [min_radius, max_radius] and move it
monotonically toward the target without ever overshooting it. -/
theorem claim3_radius_monotone (s : RadiusState) (hs : 0 ≤ s.speed)
    (hmin : s.min_radius ≤ s.current) (hmax : s.current ≤ s.max_radius)
    (ht : s.target = s.min_radius ∨ s.target = s.max_radius) (n : ℕ) :
    (s.min_radius ≤ (update_size^[n] s).current ∧
      (update_size^[n] s).current ≤ s.max_radius) ∧
    (s.current ≤ s.target →
      (update_size^[n] s).current ≤ (update_size^[n + 1] s).current ∧
      (update_size^[n] s).current ≤ s.target) ∧
    (s.target ≤ s.current →
      (update_size^[n + 1] s).current ≤ (update_size^[n] s).current ∧
      s.target ≤ (update_size^[n] s).current) := by
  have hc := update_size_iter_const s n
  refine ⟨?_, ?_, ?_⟩
  · rcases ht with ht | ht
    · have h := update_size_iter_ge s hs (ht ▸ hmin) n
      exact ⟨ht ▸ h.2, h.1.trans hmax⟩
    · have h := update_size_iter_le s hs (ht ▸ hmax) n
      exact ⟨hmin.trans h.1, ht ▸ h.2⟩
  · intro h
    have hiter := update_size_iter_le s hs h n
    have hstep := update_size_step_le (update_size^[n] s)
      (hc.2.2.2.symm ▸ hs) (by rw [hc.1]; exact hiter.2)
    rw [Function.iterate_succ_apply']
    exact ⟨hstep.1, hiter.2⟩
  · intro h
    have hiter := update_size_iter_ge s hs h n
    have hstep := update_size_step_ge (update_size^[n] s)
      (hc.2.2.2.symm ▸ hs) (by rw [hc.1]; exact hiter.2)
    rw [Function.iterate_succ_apply']
    exact ⟨hstep.1, hiter.2⟩

theorem claim3_radius_monotone_witness :
    (0 : ℝ) ≤ (⟨200, 80, 80, 200, 8⟩ : RadiusState).speed ∧
    (⟨200, 80, 80, 200, 8⟩ : RadiusState).min_radius ≤
      (⟨200, 80, 80, 200, 8⟩ : RadiusState).current ∧
    (⟨200, 80, 80, 200, 8⟩ : RadiusState).current ≤
      (⟨200, 80, 80, 200, 8⟩ : RadiusState).max_radius ∧
    (((⟨200, 80, 80, 200, 8⟩ : RadiusState).min_radius ≤
        (update_size^[1] ⟨200, 80, 80, 200, 8⟩).current ∧
      (update_size^[1] ⟨200, 80, 80, 200, 8⟩).current ≤
        (⟨200, 80, 80, 200, 8⟩ : RadiusState).max_radius) ∧
     ((⟨200, 80, 80, 200, 8⟩ : RadiusState).current ≤
        (⟨200, 80, 80, 200, 8⟩ : RadiusState).target →
       (update_size^[1] ⟨200, 80, 80, 200, 8⟩).current ≤
         (update_size^[1 + 1] ⟨200, 80, 80, 200, 8⟩).current ∧
       (update_size^[1] ⟨200, 80, 80, 200, 8⟩).current ≤
         (⟨200, 80, 80, 200, 8⟩ : RadiusState).target) ∧
     ((⟨200, 80, 80, 200, 8⟩ : RadiusState).target ≤
        (⟨200, 80, 80, 200, 8⟩ : RadiusState).current →
       (update_size^[1 + 1] ⟨200, 80, 80, 200, 8⟩).current ≤
         (update_size^[1] ⟨200, 80, 80, 200, 8⟩).current ∧
       (⟨200, 80, 80, 200, 8⟩ : RadiusState).target ≤
         (update_size^[1] ⟨200, 80, 80, 200, 8⟩).current)) :=
  ⟨by norm_num, by norm_num, by norm_num,
    claim3_radius_monotone ⟨200, 80, 80, 200, 8⟩ (by norm_num) (by norm_num)
      (by norm_num) (Or.inl rfl) 1⟩

/-- C9: malformed configuration is normalized at the boundary: for every
integer initial_minutes the constructed timer's seconds equal
max(60, min(5400, initial_minutes * 60)) and in particular always lie
between 1 and 90 minutes; and a color argument that is not three
comma-separated integers in [0, 255] is replaced by the default
(0, 120, 255), while a valid one yields components in [0, 255]. -/
theorem claim9_config_normalized (size screenW screenH : ℤ) (m : ℤ)
    (autostart : Bool) (bg : ℤ × ℤ × ℤ) (now : ℚ)
    (parts : List (Option ℤ)) :
    (twInit size screenW screenH m autostart bg now).seconds =
        max 60 (min 5400 (m * 60)) ∧
    60 ≤ (twInit size screenW screenH m autostart bg now).seconds ∧
    (twInit size screenW screenH m autostart bg now).seconds ≤ 5400 ∧
    (isValidColor parts = false → parse_color parts = (0, 120, 255)) ∧
    (isValidColor parts = true →
      0 ≤ (parse_color parts).1 ∧ (parse_color parts).1 ≤ 255 ∧
      0 ≤ (parse_color parts).2.1 ∧ (parse_color parts).2.1 ≤ 255 ∧
      0 ≤ (parse_color parts).2.2 ∧ (parse_color parts).2.2 ≤ 255) := by
  refine ⟨rfl, le_max_left _ _, max_le (by norm_num) (min_le_left _ _),
    parse_color_invalid parts, parse_color_valid parts⟩

theorem claim9_config_normalized_witness :
    isValidColor [some 300, some 0, some 0] = false ∧
    ((twInit 400 1920 1080 (-7) false (0, 120, 255) 0).seconds =
        max 60 (min 5400 ((-7) * 60)) ∧
     60 ≤ (twInit 400 1920 1080 (-7) false (0, 120, 255) 0).seconds ∧
     (twInit 400 1920 1080 (-7) false (0, 120, 255) 0).seconds ≤ 5400 ∧
     (isValidColor [some 300, some 0, some 0] = false →
       parse_color [some 300, some 0, some 0] = (0, 120, 255)) ∧
     (isValidColor [some 300, some 0, some 0] = true →
       0 ≤ (parse_color [some 300, some 0, some 0]).1 ∧
       (parse_color [some 300, some 0, some 0]).1 ≤ 255 ∧
       0 ≤ (parse_color [some 300, some 0, some 0]).2.1 ∧
       (parse_color [some 300, some 0, some 0]).2.1 ≤ 255 ∧
       0 ≤ (parse_color [some 300, some 0, some 0]).2.2 ∧
       (parse_color [some 300, some 0, some 0]).2.2 ≤ 255)) :=
  ⟨by decide,
    claim9_config_normalized 400 1920 1080 (-7) false (0, 120, 255) 0
      [some 300, some 0, some 0]⟩

/-- C7: a key-up of the close key at any time resets the gesture to Idle
(escape_held = false, escape_start cleared) and that frame continues; a
subsequent key-down starts a fresh hold timed from its own frame, and the
following close fires exactly when the full threshold has elapsed since that
new start — time held before the release is never accumulated. -/
theorem claim7_release_resets (env1 env2 env3 : Env) (s0 : CWState)
    (hdur : 0 < s0.escape_duration) :
    (process_parent_events env1 s0 [PEvent.keyUp K_ESCAPE]).2 = true ∧
    (process_parent_events env1 s0 [PEvent.keyUp K_ESCAPE]).1.escape_held = false ∧
    (process_parent_events env1 s0 [PEvent.keyUp K_ESCAPE]).1.escape_start = none ∧
    (process_parent_events env2
        (process_parent_events env1 s0 [PEvent.keyUp K_ESCAPE]).1
        [PEvent.keyDown K_ESCAPE]).2 = true ∧
    (process_parent_events env2
        (process_parent_events env1 s0 [PEvent.keyUp K_ESCAPE]).1
        [PEvent.keyDown K_ESCAPE]).1.escape_held = true ∧
    (process_parent_events env2
        (process_parent_events env1 s0 [PEvent.keyUp K_ESCAPE]).1
        [PEvent.keyDown K_ESCAPE]).1.escape_start = some env2.now ∧
    ((process_parent_events env3
        (process_parent_events env2
          (process_parent_events env1 s0 [PEvent.keyUp K_ESCAPE]).1
          [PEvent.keyDown K_ESCAPE]).1 []).2 = false ↔
      s0.escape_duration ≤ env3.now - env2.now) := by
  have hq1 : PEvent.quit ∉ [PEvent.keyUp K_ESCAPE] := by decide
  have hq2 : PEvent.quit ∉ [PEvent.keyDown K_ESCAPE] := by decide
  have hq3 : PEvent.quit ∉ ([] : List PEvent) := List.not_mem_nil _
  have h1 := ppe_escape env1 s0 [PEvent.keyUp K_ESCAPE] hq1
  have h1' : ((process_parent_events env1 s0 [PEvent.keyUp K_ESCAPE]).1.escape_held,
      (process_parent_events env1 s0 [PEvent.keyUp K_ESCAPE]).1.escape_start) =
      (false, none) := by
    rw [h1]; rfl
  rw [Prod.mk.injEq] at h1'
  obtain ⟨hheld1, hstart1⟩ := h1'
  have hsnd1 : (process_parent_events env1 s0 [PEvent.keyUp K_ESCAPE]).2 = true := by
    rw [ppe_snd_eq env1 s0 _ hq1, escTimedOut_not_held _ _ hheld1]
    rfl
  have h2 := ppe_escape env2 (process_parent_events env1 s0 [PEvent.keyUp K_ESCAPE]).1
    [PEvent.keyDown K_ESCAPE] hq2
  have h2' : ((process_parent_events env2
        (process_parent_events env1 s0 [PEvent.keyUp K_ESCAPE]).1
        [PEvent.keyDown K_ESCAPE]).1.escape_held,
      (process_parent_events env2
        (process_parent_events env1 s0 [PEvent.keyUp K_ESCAPE]).1
        [PEvent.keyDown K_ESCAPE]).1.escape_start) = (true, some env2.now) := by
    rw [h2, List.foldl_cons, List.foldl_nil, hheld1]
    simp [escStep]
  rw [Prod.mk.injEq] at h2'
  obtain ⟨hheld2, hstart2⟩ := h2'
  have hdur1 : (process_parent_events env1 s0 [PEvent.keyUp K_ESCAPE]).1.escape_duration =
      s0.escape_duration := ppe_duration env1 s0 _
  have hdur2 : (process_parent_events env2
      (process_parent_events env1 s0 [PEvent.keyUp K_ESCAPE]).1
      [PEvent.keyDown K_ESCAPE]).1.escape_duration = s0.escape_duration :=
    (ppe_duration env2 _ _).trans hdur1
  have hsnd2 : (process_parent_events env2
      (process_parent_events env1 s0 [PEvent.keyUp K_ESCAPE]).1
      [PEvent.keyDown K_ESCAPE]).2 = true := by
    rw [ppe_snd_eq env2 _ _ hq2, escTimedOut_some env2 _ env2.now hheld2 hstart2,
      hdur2, sub_self, decide_eq_false (not_le.mpr hdur)]
    rfl
  have h3fst : (process_parent_events env3
      (process_parent_events env2
        (process_parent_events env1 s0 [PEvent.keyUp K_ESCAPE]).1
        [PEvent.keyDown K_ESCAPE]).1 []).1 =
      focusUpdate env3 (process_parent_events env2
        (process_parent_events env1 s0 [PEvent.keyUp K_ESCAPE]).1
        [PEvent.keyDown K_ESCAPE]).1 := by
    rw [ppe_fst]; rfl
  have hfu := focusUpdate_fields env3 (process_parent_events env2
    (process_parent_events env1 s0 [PEvent.keyUp K_ESCAPE]).1
    [PEvent.keyDown K_ESCAPE]).1
  have hiff : ((process_parent_events env3
      (process_parent_events env2
        (process_parent_events env1 s0 [PEvent.keyUp K_ESCAPE]).1
        [PEvent.keyDown K_ESCAPE]).1 []).2 = false ↔
      s0.escape_duration ≤ env3.now - env2.now) := by
    rw [ppe_snd_eq env3 _ _ hq3, h3fst,
      escTimedOut_some env3 _ env2.now (hfu.1.trans hheld2) (hfu.2.1.trans hstart2),
      hfu.2.2.1.trans hdur2]
    simp
  exact ⟨hsnd1, hheld1, hstart1, hsnd2, hheld2, hstart2, hiff⟩

theorem claim7_release_resets_witness :
    0 < (winInit 400 1920 1080).escape_duration ∧
    ((process_parent_events env0 (winInit 400 1920 1080) [PEvent.keyUp K_ESCAPE]).2 = true ∧
     (process_parent_events env0 (winInit 400 1920 1080)
        [PEvent.keyUp K_ESCAPE]).1.escape_held = false ∧
     (process_parent_events env0 (winInit 400 1920 1080)
        [PEvent.keyUp K_ESCAPE]).1.escape_start = none ∧
     (process_parent_events { env0 with now := 1 }
        (process_parent_events env0 (winInit 400 1920 1080) [PEvent.keyUp K_ESCAPE]).1
        [PEvent.keyDown K_ESCAPE]).2 = true ∧
     (process_parent_events { env0 with now := 1 }
        (process_parent_events env0 (winInit 400 1920 1080) [PEvent.keyUp K_ESCAPE]).1
        [PEvent.keyDown K_ESCAPE]).1.escape_held = true ∧
     (process_parent_events { env0 with now := 1 }
        (process_parent_events env0 (winInit 400 1920 1080) [PEvent.keyUp K_ESCAPE]).1
        [PEvent.keyDown K_ESCAPE]).1.escape_start = some ({ env0 with now := 1 } : Env).now ∧
     ((process_parent_events { env0 with now := 5 / 2 }
        (process_parent_events { env0 with now := 1 }
          (process_parent_events env0 (winInit 400 1920 1080) [PEvent.keyUp K_ESCAPE]).1
          [PEvent.keyDown K_ESCAPE]).1 []).2 = false ↔
       (winInit 400 1920 1080).escape_duration ≤
         ({ env0 with now := 5 / 2 } : Env).now - ({ env0 with now := 1 } : Env).now)) :=
  ⟨by norm_num [winInit],
    claim7_release_resets env0 { env0 with now := 1 } { env0 with now := 5 / 2 }
      (winInit 400 1920 1080) (by norm_num [winInit])⟩

/-- C4: starting from a state in which the close key is not held, pressing
it at time env1.now and holding: the press frame continues and records the
hold start; at every frame strictly before env1.now + threshold the dispatch
still returns continue and the rendered progress fraction is strictly below
1; at the frame at exactly env1.now + threshold the dispatch returns stop
and the progress fraction equals 1. -/
theorem claim4_close_threshold (env1 env2 : Env) (s0 : CWState)
    (h0 : s0.escape_held = false) (hdur : 0 < s0.escape_duration)
    (hnow : env2.now = env1.now + s0.escape_duration) :
    (process_parent_events env1 s0 [PEvent.keyDown K_ESCAPE]).2 = true ∧
    (process_parent_events env1 s0 [PEvent.keyDown K_ESCAPE]).1.escape_held = true ∧
    (process_parent_events env1 s0 [PEvent.keyDown K_ESCAPE]).1.escape_start =
      some env1.now ∧
    (process_parent_events env2
        (process_parent_events env1 s0 [PEvent.keyDown K_ESCAPE]).1 []).2 = false ∧
    closingProgress env2.now
        (process_parent_events env1 s0 [PEvent.keyDown K_ESCAPE]).1 = some 1 ∧
    (∀ env' : Env, env'.now < env2.now →
      (process_parent_events env'
          (process_parent_events env1 s0 [PEvent.keyDown K_ESCAPE]).1 []).2 = true ∧
      (∃ p, closingProgress env'.now
          (process_parent_events env1 s0 [PEvent.keyDown K_ESCAPE]).1 = some p ∧
        p < 1)) := by
  have hq1 : PEvent.quit ∉ [PEvent.keyDown K_ESCAPE] := by decide
  have hq3 : PEvent.quit ∉ ([] : List PEvent) := List.not_mem_nil _
  have h1 := ppe_escape env1 s0 [PEvent.keyDown K_ESCAPE] hq1
  have h1' : ((process_parent_events env1 s0 [PEvent.keyDown K_ESCAPE]).1.escape_held,
      (process_parent_events env1 s0 [PEvent.keyDown K_ESCAPE]).1.escape_start) =
      (true, some env1.now) := by
    rw [h1, List.foldl_cons, List.foldl_nil, h0]
    simp [escStep]
  rw [Prod.mk.injEq] at h1'
  obtain ⟨hheld1, hstart1⟩ := h1'
  have hdur1 : (process_parent_events env1 s0 [PEvent.keyDown K_ESCAPE]).1.escape_duration =
      s0.escape_duration := ppe_duration env1 s0 _
  have hsnd1 : (process_parent_events env1 s0 [PEvent.keyDown K_ESCAPE]).2 = true := by
    rw [ppe_snd_eq env1 s0 _ hq1, escTimedOut_some env1 _ env1.now hheld1 hstart1,
      hdur1, sub_self, decide_eq_false (not_le.mpr hdur)]
    rfl
  have hfu := focusUpdate_fields env2 (process_parent_events env1 s0 [PEvent.keyDown K_ESCAPE]).1
  have hsnd2 : (process_parent_events env2
      (process_parent_events env1 s0 [PEvent.keyDown K_ESCAPE]).1 []).2 = false := by
    rw [ppe_snd_eq env2 _ _ hq3]
    have hf : (process_parent_events env2
        (process_parent_events env1 s0 [PEvent.keyDown K_ESCAPE]).1 []).1 =
        focusUpdate env2 (process_parent_events env1 s0 [PEvent.keyDown K_ESCAPE]).1 := by
      rw [ppe_fst]; rfl
    rw [hf, escTimedOut_some env2 _ env1.now (hfu.1.trans hheld1) (hfu.2.1.trans hstart1),
      hfu.2.2.1.trans hdur1, hnow, add_sub_cancel_left, decide_eq_true le_rfl]
    rfl
  have hprog : closingProgress env2.now
      (process_parent_events env1 s0 [PEvent.keyDown K_ESCAPE]).1 = some 1 := by
    rw [closingProgress, hheld1, hstart1]
    simp only [if_true]
    rw [hdur1, hnow, add_sub_cancel_left, div_self (ne_of_gt hdur), min_self]
  refine ⟨hsnd1, hheld1, hstart1, hsnd2, hprog, ?_⟩
  intro env' hlt
  have hfu' := focusUpdate_fields env' (process_parent_events env1 s0 [PEvent.keyDown K_ESCAPE]).1
  have hsub : env'.now - env1.now < s0.escape_duration := by
    rw [hnow] at hlt
    linarith
  constructor
  · rw [ppe_snd_eq env' _ _ hq3]
    have hf : (process_parent_events env'
        (process_parent_events env1 s0 [PEvent.keyDown K_ESCAPE]).1 []).1 =
        focusUpdate env' (process_parent_events env1 s0 [PEvent.keyDown K_ESCAPE]).1 := by
      rw [ppe_fst]; rfl
    rw [hf, escTimedOut_some env' _ env1.now (hfu'.1.trans hheld1) (hfu'.2.1.trans hstart1),
      hfu'.2.2.1.trans hdur1, decide_eq_false (not_le.mpr hsub)]
    rfl
  · refine ⟨min 1 ((env'.now - env1.now) /
      (process_parent_events env1 s0 [PEvent.keyDown K_ESCAPE]).1.escape_duration), ?_, ?_⟩
    · rw [closingProgress, hheld1, hstart1]
      simp only [if_true]
    · rw [hdur1]
      have hx : (env'.now - env1.now) / s0.escape_duration < 1 :=
        (div_lt_one hdur).mpr hsub
      exact min_lt_iff.mpr (Or.inr hx)

theorem claim4_close_threshold_witness :
    (winInit 400 1920 1080).escape_held = false ∧
    0 < (winInit 400 1920 1080).escape_duration ∧
    ({ env0 with now := 3 / 2 } : Env).now =
      env0.now + (winInit 400 1920 1080).escape_duration ∧
    ((process_parent_events env0 (winInit 400 1920 1080) [PEvent.keyDown K_ESCAPE]).2 = true ∧
     (process_parent_events env0 (winInit 400 1920 1080)
        [PEvent.keyDown K_ESCAPE]).1.escape_held = true ∧
     (process_parent_events env0 (winInit 400 1920 1080)
        [PEvent.keyDown K_ESCAPE]).1.escape_start = some env0.now ∧
     (process_parent_events { env0 with now := 3 / 2 }
        (process_parent_events env0 (winInit 400 1920 1080) [PEvent.keyDown K_ESCAPE]).1
        []).2 = false ∧
     closingProgress ({ env0 with now := 3 / 2 } : Env).now
        (process_parent_events env0 (winInit 400 1920 1080) [PEvent.keyDown K_ESCAPE]).1 =
       some 1 ∧
     (∀ env' : Env, env'.now < ({ env0 with now := 3 / 2 } : Env).now →
       (process_parent_events env'
           (process_parent_events env0 (winInit 400 1920 1080) [PEvent.keyDown K_ESCAPE]).1
           []).2 = true ∧
       (∃ p, closingProgress env'.now
           (process_parent_events env0 (winInit 400 1920 1080)
             [PEvent.keyDown K_ESCAPE]).1 = some p ∧
         p < 1))) :=
  ⟨rfl, by norm_num [winInit], by norm_num [winInit, env0],
    claim4_close_threshold env0 { env0 with now := 3 / 2 } (winInit 400 1920 1080)
      rfl (by norm_num [winInit]) (by norm_num [winInit, env0])⟩

/-- C1 counterexample: with the timer state as constructed (expanded, START
button at (150, 280)–(250, 313)) and a batch consisting of a click on the
START button followed by a quit-request event, handle_events returns
continue ("stop" would be false), although the batch contains a quit event —
the consumed content click makes the dispatch skip all shell processing. -/
theorem claim1_dispatch_stop_counterexample :
    PEvent.quit ∈ evsClickQuit ∧
    (handle_events env0 ts400 evsClickQuit).2 = true := by
  constructor
  · decide
  · rfl

/-- C1 (amended): a quit-request event in the batch or the close gesture
reaching its threshold makes process_parent_events return stop, and those
are its only stop paths; handle_events returns stop exactly when no content
button click was consumed in the batch and the delegated
process_parent_events call returns stop — a consumed content click makes
the whole frame return continue regardless of the rest of the batch. -/
theorem claim1_dispatch_stop_amended (env : Env) (ts : TWState) (s : CWState)
    (events : List PEvent) :
    ((process_parent_events env s events).2 = false ↔
      (PEvent.quit ∈ events ∨
        escTimedOut env (processEventsLoop env (focusUpdate env s) events).1 = true)) ∧
    ((handle_events env ts events).2 = false ↔
      ((timerLoop env ts events).2 = false ∧
        (process_parent_events env ts.cw events).2 = false)) := by
  refine ⟨ppe_stop_iff env s events, ?_⟩
  rw [handle_events_snd]
  cases hch : (timerLoop env ts events).2 with
  | false =>
      rw [if_neg Bool.false_ne_true, timerLoop_cw]
      simp
  | true => simp

/-- C2 counterexample: with the timer state as constructed and a batch
consisting of a click on the START button followed by an escape key-down,
handle_events leaves escape_held = false and escape_start = none: the escape
key-down was not routed to the close-gesture logic, because the consumed
content click skipped shell event processing for the frame. -/
theorem claim2_escape_routing_counterexample :
    PEvent.keyDown K_ESCAPE ∈ evsClickEsc ∧
    ts400.cw.escape_held = false ∧
    ts400.cw.escape_start = none ∧
    (handle_events env0 ts400 evsClickEsc).1.cw.escape_held = false ∧
    (handle_events env0 ts400 evsClickEsc).1.cw.escape_start = none := by
  exact ⟨by decide, rfl, rfl, rfl, rfl⟩

/-- C2 (amended): when no content button click is consumed in the frame and
the batch contains no quit-request event, the escape gesture state after
handle_events equals the in-order fold of the close-key updates over the
whole batch: every escape key-down and key-up is routed to the close-gesture
logic, and no other event of the batch disturbs that state. -/
theorem claim2_escape_routing_amended (env : Env) (ts : TWState)
    (events : List PEvent) (hch : (timerLoop env ts events).2 = false)
    (hq : PEvent.quit ∉ events) :
    (((handle_events env ts events).1.cw.escape_held,
        (handle_events env ts events).1.cw.escape_start) =
      events.foldl (escStep env) (ts.cw.escape_held, ts.cw.escape_start)) := by
  rw [handle_events_cw env ts events hch]
  exact ppe_escape env ts.cw events hq

theorem claim2_escape_routing_amended_witness :
    (timerLoop env0 ts400 [PEvent.keyDown K_ESCAPE, PEvent.keyUp K_ESCAPE,
        PEvent.keyDown K_ESCAPE]).2 = false ∧
    PEvent.quit ∉ [PEvent.keyDown K_ESCAPE, PEvent.keyUp K_ESCAPE,
        PEvent.keyDown K_ESCAPE] ∧
    (((handle_events env0 ts400 [PEvent.keyDown K_ESCAPE, PEvent.keyUp K_ESCAPE,
          PEvent.keyDown K_ESCAPE]).1.cw.escape_held,
        (handle_events env0 ts400 [PEvent.keyDown K_ESCAPE, PEvent.keyUp K_ESCAPE,
          PEvent.keyDown K_ESCAPE]).1.cw.escape_start) =
      [PEvent.keyDown K_ESCAPE, PEvent.keyUp K_ESCAPE,
        PEvent.keyDown K_ESCAPE].foldl (escStep env0)
        (ts400.cw.escape_held, ts400.cw.escape_start)) :=
  ⟨rfl, by decide,
    claim2_escape_routing_amended env0 ts400
      [PEvent.keyDown K_ESCAPE, PEvent.keyUp K_ESCAPE, PEvent.keyDown K_ESCAPE]
      rfl (by decide)⟩
